import Mathlib

/-!
Verification of the crowd-sourced waste-management prototype (`app.py` and
`Updated-model/predict.py`).  The report record, the validation and routing
rules, the CSV-backed store, the dashboard projection, the manual-resolution
action and the classifier fallback are embedded as executable Lean
definitions, and the specification's claims about them are proved below.
-/

/-- Python `needle in hay` on strings: `matchesAt needle hay` checks that
`needle` occurs at the very start of `hay`. -/
def matchesAt : List Char → List Char → Bool
  | [], _ => true
  | _ :: _, [] => false
  | a :: as, b :: bs => a == b && matchesAt as bs

/-- Occurrence of `needle` anywhere in `hay`. -/
def hasSub (needle : List Char) : List Char → Bool
  | [] => needle.isEmpty
  | c :: rest => matchesAt needle (c :: rest) || hasSub needle rest

/-- Python substring containment `needle in hay`. -/
def strContains (hay needle : String) : Bool :=
  hasSub needle.data hay.data

/-- Python `str.split()` with no separator: split on runs of whitespace,
dropping empty pieces.  `cur` holds the characters of the word being read,
in reverse. -/
def pyWordsAux (cur : List Char) : List Char → List String
  | [] => if cur.isEmpty then [] else [String.mk cur.reverse]
  | c :: rest =>
    if c.isWhitespace then
      if cur.isEmpty then pyWordsAux [] rest
      else String.mk cur.reverse :: pyWordsAux [] rest
    else pyWordsAux (c :: cur) rest

/-- The whitespace-separated words of a string, as Python `s.split()`. -/
def pythonWords (s : String) : List String :=
  pyWordsAux [] s.data

/-- One report record, mirroring the dictionary built in
`report_issue_form` / the columns of the reports table.  `Timestamp` is
`none` for a missing or unparseable time (pandas `NaT`); the optional text
fields are `none` where the Python code stores `None`. -/
structure Report where
  ID : String
  Location : String
  Waste_Type : String
  Description : String
  Reported_By : String
  Timestamp : Option Nat
  Status : String
  Is_Valid : Option Bool
  Predicted_Area : Option String
  Priority : Option String
  Image_Filename : Option String
deriving DecidableEq, Repr

/-- `report_data['Image_Filename'] not in (None, 'Saving Failed')`. -/
def has_image : Option String → Bool
  | none => false
  | some s => s != "Saving Failed"

/-- `simulate_validation` from `app.py`: computes `Is_Valid` from the
location word count, the description length and the image field, and
`Predicted_Area` from the waste type and validity. -/
def simulate_validation (r : Report) : Report :=
  let location_valid : Bool := decide (3 ≤ (pythonWords r.Location).length)
  let description_detailed : Bool := decide (30 < r.Description.length)
  let is_valid : Bool := (location_valid && description_detailed) || has_image r.Image_Filename
  let predicted_area : String :=
    if strContains r.Waste_Type "Hazardous" then "Hazardous Waste Zone"
    else if is_valid then "Urban Cleanup Sector A"
    else "Validation Pending/Vague Location"
  { r with Is_Valid := some is_valid, Predicted_Area := some predicted_area }

/-- `simulate_routing_and_prioritization` from `app.py`: assigns `Priority`
and `Status` from the waste type, the predicted area and the image field. -/
def simulate_routing_and_prioritization (r : Report) : Report :=
  let ps : String × String :=
    if r.Waste_Type == "Hazardous" then
      ("Critical (Immediate Action)", "Awaiting Specialized Team Dispatch")
    else if strContains (r.Predicted_Area.getD "") "Urban Cleanup Sector A" then
      ("High", "Assigned to Local Crew (24 hr target)")
    else
      ("Medium", "Queued for Standard Pickup (72 hr target)")
  let ps : String × String :=
    if has_image r.Image_Filename && (ps.1 == "Medium") then
      ("Medium/High (Visual Verified)", "Assigned to Local Crew (48 hr target)")
    else ps
  { r with Priority := some ps.1, Status := ps.2 }

/-- The tab-1 submission flow after the form: validate, then route only when
`Is_Valid` is truthy. -/
def tab1_process (r : Report) : Report :=
  let p := simulate_validation r
  if p.Is_Valid == some true then simulate_routing_and_prioritization p else p

/-- The tab-1 submission flow including the store append: both the valid and
the invalid branch concatenate exactly one new row. -/
def tab1_submit (store : List Report) (r : Report) : List Report :=
  store ++ [tab1_process r]

/-- The submitted-branch of `report_issue_form`: rejects an empty location or
description, otherwise packages the report dictionary.  The fresh id and the
current time are passed in, standing for `uuid.uuid4()` and
`pd.Timestamp.now()`. -/
def report_issue_form (location waste_type description reported_by : String)
    (image_filename : Option String) (fresh_id : String) (now : Nat) : Option Report :=
  if location == "" || description == "" then none
  else some
    { ID := fresh_id
      Location := location
      Waste_Type := waste_type
      Description := description
      Reported_By := reported_by
      Timestamp := some now
      Status := "New"
      Is_Valid := none
      Predicted_Area := none
      Priority := none
      Image_Filename := image_filename }

/-- Validity rule as the specification words it: at least three words of
location and a description longer than 30 characters, or an image that is
set and is not the failure marker. -/
def spec_is_valid (r : Report) : Bool :=
  (decide (3 ≤ (pythonWords r.Location).length) && decide (30 < r.Description.length))
    || has_image r.Image_Filename

/-- Predicted area rule as the specification words it. -/
def spec_predicted_area (r : Report) : String :=
  if strContains r.Waste_Type "Hazardous" then "Hazardous Waste Zone"
  else if spec_is_valid r then "Urban Cleanup Sector A"
  else "Validation Pending/Vague Location"

/-- Routing rule as the specification words it: hazardous waste is critical;
otherwise a predicted area equal to "Urban Cleanup Sector A" is high
priority; otherwise medium, upgraded when an image is attached. -/
def spec_priority_status (r : Report) : String × String :=
  if r.Waste_Type == "Hazardous" then
    ("Critical (Immediate Action)", "Awaiting Specialized Team Dispatch")
  else if r.Predicted_Area == some "Urban Cleanup Sector A" then
    ("High", "Assigned to Local Crew (24 hr target)")
  else if has_image r.Image_Filename then
    ("Medium/High (Visual Verified)", "Assigned to Local Crew (48 hr target)")
  else
    ("Medium", "Queued for Standard Pickup (72 hr target)")

/-- C1: the Validator always populates both fields, with `Is_Valid` given by
`(word_count(Location) >= 3 AND length(Description) > 30) OR has_image` and
`Predicted_Area` given by the hazardous / valid / pending cascade. -/
theorem validator_matches_spec (r : Report) :
    (simulate_validation r).Is_Valid = some (spec_is_valid r) ∧
    (simulate_validation r).Predicted_Area = some (spec_predicted_area r) :=
  ⟨rfl, rfl⟩

/-- A vague submission: one-word location, short description, no image
(the spec's invalid scenario). -/
def vagueReport : Report :=
  { ID := "id-1", Location := "here", Waste_Type := "General Trash",
    Description := "trash", Reported_By := "", Timestamp := some 0,
    Status := "New", Is_Valid := none, Predicted_Area := none,
    Priority := none, Image_Filename := none }

/-- A detailed submission: three-word location, long description, no image
(the spec's valid scenario). -/
def detailedReport : Report :=
  { ID := "id-2", Location := "123 Main Street", Waste_Type := "General Trash",
    Description := "Large pile of furniture and debris blocking the sidewalk",
    Reported_By := "", Timestamp := some 1, Status := "New", Is_Valid := none,
    Predicted_Area := none, Priority := none, Image_Filename := none }

/-- C2: on every validated report the Router computes exactly the
priority/status pair the specification describes, including the image
upgrade of the medium branch. -/
theorem router_matches_spec (r : Report)
    (h : (simulate_validation r).Is_Valid = some true) :
    (simulate_routing_and_prioritization (simulate_validation r)).Priority
      = some (spec_priority_status (simulate_validation r)).1 ∧
    (simulate_routing_and_prioritization (simulate_validation r)).Status
      = (spec_priority_status (simulate_validation r)).2 := by
  have hv : (simulate_validation r).Is_Valid = some (spec_is_valid r) := rfl
  rw [hv] at h
  have hV : spec_is_valid r = true := by simpa using h
  have hpa : (simulate_validation r).Predicted_Area = some (spec_predicted_area r) := rfl
  have hwt : (simulate_validation r).Waste_Type = r.Waste_Type := rfl
  have him : (simulate_validation r).Image_Filename = r.Image_Filename := rfl
  have hz : strContains "Hazardous Waste Zone" "Urban Cleanup Sector A" = false := by decide
  have hu : strContains "Urban Cleanup Sector A" "Urban Cleanup Sector A" = true := by decide
  by_cases hw : r.Waste_Type = "Hazardous"
  · simp [simulate_routing_and_prioritization, spec_priority_status, hwt, hw]
  · by_cases hc : strContains r.Waste_Type "Hazardous" = true
    · have hpa2 : spec_predicted_area r = "Hazardous Waste Zone" := by
        simp [spec_predicted_area, hc]
      cases hib : has_image r.Image_Filename <;>
        simp [simulate_routing_and_prioritization, spec_priority_status, hwt, him,
          hpa, hpa2, hw, hz, hib]
    · have hpa2 : spec_predicted_area r = "Urban Cleanup Sector A" := by
        simp [spec_predicted_area, hc, hV]
      simp [simulate_routing_and_prioritization, spec_priority_status, hwt, him,
        hpa, hpa2, hw, hu]

/-- C2, checked on the detailed valid scenario. -/
theorem router_matches_spec_checked :
    (simulate_routing_and_prioritization (simulate_validation detailedReport)).Priority
      = some (spec_priority_status (simulate_validation detailedReport)).1 ∧
    (simulate_routing_and_prioritization (simulate_validation detailedReport)).Status
      = (spec_priority_status (simulate_validation detailedReport)).2 :=
  router_matches_spec detailedReport (by decide)

/-- C3: when validation fails, the submission flow never calls the Router:
the stored record is exactly the validated record, with `Priority` still
unset and `Status` still the factory value "New". -/
theorem invalid_report_not_routed (loc wt desc rb : String) (img : Option String)
    (fid : String) (now : Nat) (r0 : Report)
    (hform : report_issue_form loc wt desc rb img fid now = some r0)
    (hinv : (simulate_validation r0).Is_Valid = some false) :
    tab1_process r0 = simulate_validation r0 ∧
    (tab1_process r0).Priority = none ∧ (tab1_process r0).Status = "New" := by
  unfold report_issue_form at hform
  split at hform
  · exact absurd hform (by simp)
  · have hr0 := (Option.some_injective _ hform).symm
    have hskip : tab1_process r0 = simulate_validation r0 := by
      simp [tab1_process, hinv]
    refine ⟨hskip, ?_, ?_⟩
    · have : (simulate_validation r0).Priority = r0.Priority := rfl
      rw [hskip, this, hr0]
    · have : (simulate_validation r0).Status = r0.Status := rfl
      rw [hskip, this, hr0]

/-- C3, checked on the vague invalid scenario. -/
theorem invalid_report_not_routed_checked :
    tab1_process vagueReport = simulate_validation vagueReport ∧
    (tab1_process vagueReport).Priority = none ∧
    (tab1_process vagueReport).Status = "New" :=
  invalid_report_not_routed "here" "General Trash" "trash" "" none "id-1" 0
    vagueReport (by decide) (by decide)

/-- C4: the Factory fails exactly when the location or the description is
empty, and otherwise returns the packaged report with the fresh id, the
current time, status "New" and the three derived fields unset. -/
theorem factory_contract (loc wt desc rb : String) (img : Option String)
    (fid : String) (now : Nat) :
    (report_issue_form loc wt desc rb img fid now = none ↔ loc = "" ∨ desc = "") ∧
    (loc ≠ "" → desc ≠ "" →
      report_issue_form loc wt desc rb img fid now =
        some { ID := fid, Location := loc, Waste_Type := wt, Description := desc,
               Reported_By := rb, Timestamp := some now, Status := "New",
               Is_Valid := none, Predicted_Area := none, Priority := none,
               Image_Filename := img }) := by
  constructor
  · by_cases h1 : loc = "" <;> by_cases h2 : desc = "" <;>
      simp [report_issue_form, h1, h2]
  · intro h1 h2
    simp [report_issue_form, h1, h2]

/-- C4, checked on the detailed scenario's raw fields. -/
theorem factory_contract_checked :
    report_issue_form "123 Main Street" "General Trash"
      "Large pile of furniture and debris blocking the sidewalk" "" none "id-2" 1
      = some detailedReport :=
  (factory_contract "123 Main Street" "General Trash"
    "Large pile of furniture and debris blocking the sidewalk" "" none "id-2" 1).2
    (by decide) (by decide)

/-- One persisted CSV timestamp cell.  `pd.Timestamp.now()` serialises to a
well-formed date string, abstracted here as `num`; `empty` is a blank cell
(`NaT`/`None`); `malformed` is any string `pd.to_datetime` cannot parse. -/
inductive TsCell where
  | empty : TsCell
  | num : Nat → TsCell
  | malformed : String → TsCell
deriving DecidableEq, Repr

/-- One persisted CSV row of `waste_reports.csv`, one cell per column; a
blank cell (pandas `NaN`) is `none`. -/
structure Row where
  ID : Option String
  Location : Option String
  Waste_Type : Option String
  Description : Option String
  Reported_By : Option String
  Timestamp : TsCell
  Status : Option String
  Is_Valid : Option String
  Predicted_Area : Option String
  Priority : Option String
  Image_Filename : Option String
deriving DecidableEq, Repr

/-- `df.to_csv` on a required text field: the empty string is written as a
blank cell. -/
def encodeStrCell (s : String) : Option String :=
  if s == "" then none else some s

/-- `pd.read_csv` on a required text field: a blank cell reads back as the
empty string for display purposes. -/
def decodeStrCell (c : Option String) : String :=
  c.getD ""

/-- `df.to_csv` on an optional text field: `None` and the empty string both
serialise to a blank cell. -/
def encodeOptCell : Option String → Option String
  | none => none
  | some s => if s == "" then none else some s

/-- `pd.read_csv` on an optional text field: blank cells come back as
missing (`NaN`). -/
def decodeOptCell : Option String → Option String
  | none => none
  | some s => if s == "" then none else some s

/-- `df.to_csv` on the `Is_Valid` column: Python booleans print as
"True"/"False". -/
def encodeBoolCell : Option Bool → Option String
  | none => none
  | some true => some "True"
  | some false => some "False"

/-- `pd.read_csv` on the `Is_Valid` column. -/
def decodeBoolCell : Option String → Option Bool
  | none => none
  | some s => if s == "True" then some true else if s == "False" then some false else none

/-- Serialising the in-memory timestamp for `df.to_csv`. -/
def encodeTsCell : Option Nat → TsCell
  | none => .empty
  | some n => .num n

/-- `pd.to_datetime(..., errors='coerce')`: well-formed cells parse, a blank
cell is `NaT`, and a malformed cell is coerced to `NaT` instead of raising. -/
def decodeTsCell : TsCell → Option Nat
  | .empty => none
  | .num n => some n
  | .malformed _ => none

/-- One report serialised to one CSV row, as `save_reports` writes it. -/
def encodeReport (r : Report) : Row :=
  { ID := encodeStrCell r.ID
    Location := encodeStrCell r.Location
    Waste_Type := encodeStrCell r.Waste_Type
    Description := encodeStrCell r.Description
    Reported_By := encodeStrCell r.Reported_By
    Timestamp := encodeTsCell r.Timestamp
    Status := encodeStrCell r.Status
    Is_Valid := encodeBoolCell r.Is_Valid
    Predicted_Area := encodeOptCell r.Predicted_Area
    Priority := encodeOptCell r.Priority
    Image_Filename := encodeOptCell r.Image_Filename }

/-- One CSV row read back into a report, including the timestamp coercion
`load_reports` applies. -/
def decodeRow (row : Row) : Report :=
  { ID := decodeStrCell row.ID
    Location := decodeStrCell row.Location
    Waste_Type := decodeStrCell row.Waste_Type
    Description := decodeStrCell row.Description
    Reported_By := decodeStrCell row.Reported_By
    Timestamp := decodeTsCell row.Timestamp
    Status := decodeStrCell row.Status
    Is_Valid := decodeBoolCell row.Is_Valid
    Predicted_Area := decodeOptCell row.Predicted_Area
    Priority := decodeOptCell row.Priority
    Image_Filename := decodeOptCell row.Image_Filename }

/-- `save_reports`: the whole table is rewritten, one row per report. -/
def save_reports (df : List Report) : List Row :=
  df.map encodeReport

/-- `load_reports`: a missing `waste_reports.csv` (`FileNotFoundError`)
yields the empty table with the fixed column set; otherwise every row is
read back, timestamps coerced. -/
def load_reports (file : Option (List Row)) : List Report :=
  match file with
  | none => []
  | some rows => rows.map decodeRow

theorem decode_encode_str (s : String) : decodeStrCell (encodeStrCell s) = s := by
  by_cases h : s = "" <;> simp [encodeStrCell, decodeStrCell, h]

theorem decode_encode_opt (o : Option String) (h : o ≠ some "") :
    decodeOptCell (encodeOptCell o) = o := by
  cases o with
  | none => rfl
  | some s =>
    have hs : s ≠ "" := fun he => h (by rw [he])
    simp [encodeOptCell, decodeOptCell, hs]

theorem decode_encode_bool (b : Option Bool) : decodeBoolCell (encodeBoolCell b) = b := by
  rcases b with _ | b
  · rfl
  · cases b <;> simp [encodeBoolCell, decodeBoolCell]

theorem decode_encode_ts (t : Option Nat) : decodeTsCell (encodeTsCell t) = t := by
  cases t <;> rfl

/-- A report whose optional fields do not hold the empty string (every
report the app constructs satisfies this) survives one serialise/parse
cycle unchanged. -/
theorem decode_encode_report (r : Report) (h1 : r.Predicted_Area ≠ some "")
    (h2 : r.Priority ≠ some "") (h3 : r.Image_Filename ≠ some "") :
    decodeRow (encodeReport r) = r := by
  simp [decodeRow, encodeReport, decode_encode_str, decode_encode_bool,
    decode_encode_ts, decode_encode_opt _ h1, decode_encode_opt _ h2,
    decode_encode_opt _ h3]

theorem decode_idem_str (c : Option String) :
    decodeStrCell (encodeStrCell (decodeStrCell c)) = decodeStrCell c := by
  rcases c with _ | s
  · rfl
  · by_cases h : s = "" <;> simp [encodeStrCell, decodeStrCell, h]

theorem decode_idem_opt (c : Option String) :
    decodeOptCell (encodeOptCell (decodeOptCell c)) = decodeOptCell c := by
  rcases c with _ | s
  · rfl
  · by_cases h : s = "" <;> simp [encodeOptCell, decodeOptCell, h]

theorem decode_idem_bool (c : Option String) :
    decodeBoolCell (encodeBoolCell (decodeBoolCell c)) = decodeBoolCell c := by
  rcases c with _ | s
  · rfl
  · by_cases h1 : s = "True" <;> by_cases h2 : s = "False" <;>
      simp [encodeBoolCell, decodeBoolCell, h1, h2]

theorem decode_idem_ts (c : TsCell) :
    decodeTsCell (encodeTsCell (decodeTsCell c)) = decodeTsCell c := by
  cases c <;> rfl

/-- Re-serialising an already-loaded row loses nothing further. -/
theorem decode_encode_decode (row : Row) :
    decodeRow (encodeReport (decodeRow row)) = decodeRow row := by
  simp [decodeRow, encodeReport, decode_idem_str, decode_idem_opt,
    decode_idem_bool, decode_idem_ts]

/-- C5: store round-trip.  Appending a report to the loaded table and
saving, then loading again, returns the previous table with the new report
unchanged.  The hypotheses exclude the unreachable empty-string sentinel in
the three optional fields. -/
theorem store_round_trip (file : Option (List Row)) (r : Report)
    (h1 : r.Predicted_Area ≠ some "") (h2 : r.Priority ≠ some "")
    (h3 : r.Image_Filename ≠ some "") :
    load_reports (some (save_reports (load_reports file ++ [r])))
      = load_reports file ++ [r] := by
  cases file with
  | none =>
    simp [load_reports, save_reports, decode_encode_report r h1 h2 h3]
  | some rows =>
    simp only [load_reports, save_reports, List.map_append, List.map_map,
      List.map_cons, List.map_nil]
    congr 1
    · exact List.map_congr_left fun row _ => decode_encode_decode row
    · simp [Function.comp, decode_encode_report r h1 h2 h3]

/-- A routed report as stored after the valid-branch submission flow. -/
def routedSample : Report :=
  tab1_process detailedReport

/-- One persisted row whose timestamp cell is unparseable. -/
def badTsRow : Row :=
  { ID := some "id-3", Location := some "Central Park", Waste_Type := some "Other",
    Description := some "old report", Reported_By := none,
    Timestamp := .malformed "not a date", Status := some "New",
    Is_Valid := none, Predicted_Area := none, Priority := none,
    Image_Filename := none }

/-- C5, checked: the round trip on an empty file and the routed sample. -/
theorem store_round_trip_checked :
    load_reports (some (save_reports (load_reports none ++ [routedSample])))
      = load_reports none ++ [routedSample] :=
  store_round_trip none routedSample (by decide) (by decide) (by decide)

/-- C6: the store load is total on its error cases: a missing file loads as
the empty table, and any row with a malformed timestamp cell still loads,
its timestamp coerced to `none` ("unknown") instead of an error. -/
theorem store_load_total :
    load_reports none = [] ∧
    ∀ (c1 c2 c3 c4 c5 : Option String) (s : String)
      (c7 c8 c9 c10 c11 : Option String),
      (load_reports (some [⟨c1, c2, c3, c4, c5, TsCell.malformed s,
          c7, c8, c9, c10, c11⟩])).map Report.Timestamp = [none] :=
  ⟨rfl, fun _ _ _ _ _ _ _ _ _ _ _ => rfl⟩

/-- The resolve button handler: locate the first stored row whose `ID`
equals the selected full id and overwrite its `Status` and `Priority` with
"Resolved", leaving every other row alone. -/
def resolve_report : List Report → String → List Report
  | [], _ => []
  | r :: rest, fid =>
    if r.ID == fid then
      { r with Status := "Resolved", Priority := some "Resolved" } :: rest
    else r :: resolve_report rest fid

/-- `df['Status'].str.contains('target|Dispatch')` on one status value. -/
def statusPending (s : String) : Bool :=
  strContains s "target" || strContains s "Dispatch"

/-- The "Reports Awaiting Action" metric of the dashboard. -/
def pending_count (df : List Report) : Nat :=
  (df.filter fun r => statusPending r.Status).length

/-- The rows offered in the Admin Actions resolve selector. -/
def unresolved_reports (df : List Report) : List Report :=
  df.filter fun r => statusPending r.Status

/-- C7: resolving a stored report with a routed status rewrites exactly that
report's `Status` and `Priority` to "Resolved"; every other field of it and
every other stored report are unchanged. -/
theorem resolve_updates_only_target (pre post : List Report) (r : Report)
    (_hst : r.Status = "Queued for Standard Pickup (72 hr target)")
    (hpre : ∀ p ∈ pre, p.ID ≠ r.ID) :
    resolve_report (pre ++ r :: post) r.ID =
      pre ++ { r with Status := "Resolved", Priority := some "Resolved" } :: post := by
  induction pre with
  | nil => simp [resolve_report]
  | cons p pre ih =>
    have hp : p.ID ≠ r.ID := hpre p (by simp)
    simp only [List.cons_append, resolve_report, beq_iff_eq, if_neg hp]
    exact congrArg (p :: ·) (ih fun q hq => hpre q (by simp [hq]))

/-- A queued medium-priority report (contained-but-not-equal hazardous
type), as the Medium routing branch stores it. -/
def queuedSample : Report :=
  { ID := "id-4", Location := "east dock", Waste_Type := "Hazardous Chemicals",
    Description := "small heap of mixed waste near the gate",
    Reported_By := "", Timestamp := some 2,
    Status := "Queued for Standard Pickup (72 hr target)",
    Is_Valid := some true, Predicted_Area := some "Hazardous Waste Zone",
    Priority := some "Medium", Image_Filename := none }

/-- C7, checked on a three-report store. -/
theorem resolve_updates_only_target_checked :
    resolve_report ([routedSample] ++ queuedSample :: [vagueReport]) queuedSample.ID
      = [routedSample] ++
        { queuedSample with Status := "Resolved", Priority := some "Resolved" }
          :: [vagueReport] :=
  resolve_updates_only_target [routedSample] [vagueReport] queuedSample rfl (by decide)

/-- The dashboard's displayed column set, in display order. -/
structure DisplayRow where
  Timestamp : Option Nat
  Location : String
  Waste_Type : String
  Status : String
  Priority : Option String
  Predicted_Area : Option String
  Image_Filename : Option String
deriving DecidableEq, Repr

/-- Column selection `df_filtered[display_cols]` on one report. -/
def display_row (r : Report) : DisplayRow :=
  { Timestamp := r.Timestamp, Location := r.Location, Waste_Type := r.Waste_Type,
    Status := r.Status, Priority := r.Priority, Predicted_Area := r.Predicted_Area,
    Image_Filename := r.Image_Filename }

/-- Timestamp comparison for the descending sort; a missing timestamp
(`NaT`) sorts last, as pandas places missing values. -/
def tsGeB : Option Nat → Option Nat → Bool
  | some x, some y => decide (y ≤ x)
  | some _, none => true
  | none, some _ => false
  | none, none => true

/-- Display rows ordered by `Timestamp` descending. -/
def rowGe (a b : DisplayRow) : Prop :=
  tsGeB a.Timestamp b.Timestamp = true

instance : DecidableRel rowGe := fun a b =>
  inferInstanceAs (Decidable (tsGeB a.Timestamp b.Timestamp = true))

theorem tsGeB_total (a b : Option Nat) : tsGeB a b = true ∨ tsGeB b a = true := by
  cases a <;> cases b <;> simp [tsGeB]
  exact Nat.le_total _ _

theorem tsGeB_trans (a b c : Option Nat) (h1 : tsGeB a b = true)
    (h2 : tsGeB b c = true) : tsGeB a c = true := by
  cases a <;> cases b <;> cases c <;> simp_all [tsGeB]
  omega

instance : IsTotal DisplayRow rowGe :=
  ⟨fun a b => tsGeB_total a.Timestamp b.Timestamp⟩

instance : IsTrans DisplayRow rowGe :=
  ⟨fun a b c h1 h2 => tsGeB_trans a.Timestamp b.Timestamp c.Timestamp h1 h2⟩

/-- The tab-2 dashboard projection: keep the rows whose status is in the
selected filter set, restrict to the display columns, and sort by timestamp
descending. -/
def dashboard_projection (df : List Report) (fs : List String) : List DisplayRow :=
  List.insertionSort rowGe ((df.filter fun r => fs.contains r.Status).map display_row)

/-- C8: the projection is deterministic (same filter, same store, same
output), its rows are exactly the status-filtered rows projected to the
bounded column set, and it is sorted by timestamp descending. -/
theorem dashboard_projection_props (df : List Report) (fs : List String) :
    dashboard_projection df fs = dashboard_projection df fs ∧
    (dashboard_projection df fs).Perm
      ((df.filter fun r => fs.contains r.Status).map display_row) ∧
    List.Sorted rowGe (dashboard_projection df fs) :=
  ⟨rfl, List.perm_insertionSort _ _, List.sorted_insertionSort _ _⟩

/-- C10: a factory-accepted report is appended exactly once whatever its
validity; the invalid branch persists the validated record itself, with
`Priority` unset and `Status` "New", so it is counted in neither the
"Reports Awaiting Action" metric nor the resolve selector. -/
theorem invalid_report_persisted (store : List Report) (loc wt desc rb : String)
    (img : Option String) (fid : String) (now : Nat) (r0 : Report)
    (hform : report_issue_form loc wt desc rb img fid now = some r0)
    (hinv : (simulate_validation r0).Is_Valid = some false) :
    (∀ q : Report, (tab1_submit store q).length = store.length + 1) ∧
    tab1_submit store r0 = store ++ [simulate_validation r0] ∧
    (simulate_validation r0).Priority = none ∧
    (simulate_validation r0).Status = "New" ∧
    pending_count (tab1_submit store r0) = pending_count store ∧
    unresolved_reports (tab1_submit store r0) = unresolved_reports store := by
  unfold report_issue_form at hform
  split at hform
  · exact absurd hform (by simp)
  · have hr0 := (Option.some_injective _ hform).symm
    have hsubmit : tab1_submit store r0 = store ++ [simulate_validation r0] := by
      simp [tab1_submit, tab1_process, hinv]
    have hstP : (simulate_validation r0).Priority = none := by
      have : (simulate_validation r0).Priority = r0.Priority := rfl
      rw [this, hr0]
    have hstS : (simulate_validation r0).Status = "New" := by
      have : (simulate_validation r0).Status = r0.Status := rfl
      rw [this, hr0]
    have hpend : statusPending (simulate_validation r0).Status = false := by
      rw [hstS]; decide
    refine ⟨fun q => by simp [tab1_submit], hsubmit, hstP, hstS, ?_, ?_⟩
    · rw [hsubmit]
      simp [pending_count, List.filter_append, hpend]
    · rw [hsubmit]
      simp [unresolved_reports, List.filter_append, hpend]

/-- C10, checked: the vague invalid submission over a one-report store. -/
theorem invalid_report_persisted_checked :
    tab1_submit [routedSample] vagueReport
      = [routedSample] ++ [simulate_validation vagueReport] ∧
    (simulate_validation vagueReport).Priority = none ∧
    (simulate_validation vagueReport).Status = "New" ∧
    pending_count (tab1_submit [routedSample] vagueReport)
      = pending_count [routedSample] ∧
    unresolved_reports (tab1_submit [routedSample] vagueReport)
      = unresolved_reports [routedSample] :=
  (invalid_report_persisted [routedSample] "here" "General Trash" "trash" "" none
    "id-1" 0 vagueReport (by decide) (by decide)).2

/-- `predict_with_keras` from `predict.py`: the fallback strategy returns
the model's raw prediction vector, with no normalisation applied. -/
def predict_with_keras (model_out : List ℚ) : List ℚ :=
  model_out

/-- The quantized branch of `predict_with_tflite`: the raw output vector is
normalised by its sum (`probs = probs / probs.sum()`). -/
def predict_with_tflite_quantized (output_data : List ℚ) : List ℚ :=
  output_data.map fun x => x / output_data.sum

/-- Pairs ordered by probability descending, the order produced by
`sorted(pairs, key=lambda x: x[1], reverse=True)`. -/
def probDesc (a b : String × ℚ) : Prop :=
  b.2 ≤ a.2

instance : DecidableRel probDesc := fun a b =>
  inferInstanceAs (Decidable (b.2 ≤ a.2))

instance : IsTotal (String × ℚ) probDesc :=
  ⟨fun a b => le_total b.2 a.2⟩

instance : IsTrans (String × ℚ) probDesc :=
  ⟨fun _ _ _ h1 h2 => le_trans h2 h1⟩

/-- The try/except of `predict_from_image`: run the TFLite strategy when its
model file exists, and on a missing file or any failure fall back, once, to
the Keras strategy; a failure of the fallback propagates.  The two backend
runs are parameters, standing for the external interpreter and model. -/
def classify_probs (tflite_model_present : Bool)
    (tflite_out keras_out : Except Unit (List ℚ)) : Except Unit (List ℚ) :=
  match (if tflite_model_present then tflite_out else Except.error ()) with
  | .ok probs => .ok probs
  | .error _ => keras_out

/-- `predict_from_image` from `predict.py`: obtain a probability vector via
the one-shot fallback, pair it with the labels, and sort descending by
probability. -/
def predict_from_image (tflite_model_present : Bool)
    (tflite_out keras_out : Except Unit (List ℚ)) (labels : List String) :
    Except Unit (List (String × ℚ)) :=
  match classify_probs tflite_model_present tflite_out keras_out with
  | .ok probs => .ok (List.insertionSort probDesc (labels.zip probs))
  | .error e => .error e

/-- C9 fails as stated: when the TFLite model file is absent the Keras
fallback's raw outputs are returned unnormalised, so the returned
probabilities need not sum to 1 (here the fallback yields logits 2 and 3,
whose sum is 5). -/
theorem classifier_sum_counterexample :
    predict_from_image false (Except.error ()) (Except.ok [(2 : ℚ), 3])
        ["plastic", "metal"]
      = Except.ok [("metal", (3 : ℚ)), ("plastic", 2)] ∧
    (([("metal", (3 : ℚ)), ("plastic", (2 : ℚ))]).map Prod.snd).sum ≠ 1 := by
  constructor
  · have h32 : ¬((3 : ℚ) ≤ 2) := by norm_num
    simp [predict_from_image, classify_probs, List.insertionSort,
      List.orderedInsert, probDesc, h32]
  · norm_num

theorem sum_map_div (l : List ℚ) (s : ℚ) :
    (l.map fun x => x / s).sum = l.sum / s := by
  induction l with
  | nil => simp
  | cons a t ih => simp [ih, add_div]

/-- C9 amended: every successful result is ordered descending by
probability; when the primary strategy fails the result is exactly the
secondary strategy's labelled, sorted output (one fallback, no retry, and a
secondary failure propagates); and the sum-to-1 normalisation is applied on
the quantized primary branch, not by `predict_from_image` itself. -/
theorem classifier_amended (present : Bool) (tout kout : Except Unit (List ℚ))
    (labels : List String) :
    (∀ l, predict_from_image present tout kout labels = Except.ok l →
      List.Sorted probDesc l) ∧
    (∀ probs, kout = Except.ok probs →
      predict_from_image present (Except.error ()) kout labels
        = Except.ok (List.insertionSort probDesc (labels.zip probs))) ∧
    (kout = Except.error () →
      predict_from_image present (Except.error ()) kout labels = Except.error ()) ∧
    (∀ out : List ℚ, out.sum ≠ 0 → (predict_with_tflite_quantized out).sum = 1) := by
  refine ⟨?_, ?_, ?_, ?_⟩
  · intro l hl
    unfold predict_from_image at hl
    rcases hres : classify_probs present tout kout with e | probs <;> rw [hres] at hl
    · exact absurd hl (by simp)
    · have : List.insertionSort probDesc (labels.zip probs) = l := by
        simpa using hl
      rw [← this]
      exact List.sorted_insertionSort probDesc _
  · intro probs hk
    cases present <;> simp [predict_from_image, classify_probs, hk]
  · intro hk
    cases present <;> simp [predict_from_image, classify_probs, hk]
  · intro out hs
    simp [predict_with_tflite_quantized, sum_map_div, div_self hs]

/-- C9 amended, checked on the fallback path with concrete logits. -/
theorem classifier_amended_checked :
    predict_from_image false (Except.error ()) (Except.ok [(2 : ℚ), 3])
        ["plastic", "metal"]
      = Except.ok (List.insertionSort probDesc
          (["plastic", "metal"].zip [(2 : ℚ), 3])) :=
  (classifier_amended false (Except.error ()) (Except.ok [(2 : ℚ), 3])
    ["plastic", "metal"]).2.1 [(2 : ℚ), 3] rfl
